import Mathlib

/-!
Verification of the cherry-pick conflict-resolution engine in
`src/lib/cherrypickAndCreateTargetPullRequest/waitForCherrypick.ts` and the
label-tagging glue in `src/lib/github/v3/addLabelsToPullRequest.ts`.

External collaborators (git queries, the confirmation prompt, the automatic
resolver, the hint finder, the commit primitive, the GitHub client) are modelled
as environments: pure functions or `Except` values indexed, where the tree can
change over time, by the round counter at which the call is issued.
-/

set_option maxHeartbeats 1000000

namespace Backport

/-- From `src/lib/git.ts` (`ConflictingFiles`): each conflicting file carries an
absolute and a repository-relative path. -/
structure ConflictingFile where
  absolute : String
  relative : String
  deriving Repr, DecidableEq

/-- lodash `difference(xs, ys)`: the elements of `xs` that do not occur in `ys`,
in order. -/
def lodashDifference (xs ys : List String) : List String :=
  xs.filter (fun x => !ys.contains x)

/-- `MAX_RETRIES` from `listConflictingAndUnstagedFiles`
(waitForCherrypick.ts line 217). -/
def MAX_RETRIES : Nat := 100

/-- Result of the interactive resolution loop: return = resolved;
`BackportError({code: 'abort-conflict-resolution-exception'})` = aborted;
`Error('Maximum number of retries ...')` = retryLimitExceeded. -/
inductive LoopResult
  | resolved
  | aborted
  | retryLimitExceeded
  deriving Repr, DecidableEq

/-- Observable record of one round of the interactive loop: the snapshot the
round checked (and displayed, when it prompted), whether the confirmation
prompt was shown, the user's answer, and whether the round re-queried the
working tree (`getConflictingFiles` / `getUnstagedFiles`) before recursing. -/
structure Round where
  retries : Nat
  conflictingFiles : List String
  unstagedFiles : List String
  prompted : Bool
  confirmAnswer : Option Bool
  requeriedTree : Bool
  deriving Repr, DecidableEq

/-- Environment of the loop: the user's answer to the n-th prompt, and the
working-tree state the git queries report when issued at round counter n.
The tree is mutated externally between rounds, hence the index. -/
structure LoopEnv where
  confirmPrompt : Nat → Bool
  getConflictingFiles : Nat → List ConflictingFile
  getUnstagedFiles : Nat → List String

/-- `listConflictingAndUnstagedFiles` (waitForCherrypick.ts lines 169-233).
Checks `difference(unstagedFiles, conflictingFiles)` and `conflictingFiles`
for emptiness; returns when both are empty; otherwise prompts, throws the
abort error on decline, checks `retries++ > MAX_RETRIES` (the pre-increment
value) and throws the retry-limit error when it exceeds the bound, and
otherwise re-queries both file sets and recurses with the incremented counter
and the fresh snapshot.  Alongside the result we return the per-round trace. -/
def listConflictingAndUnstagedFiles (env : LoopEnv) (retries : Nat)
    (conflictingFiles unstagedFiles : List String) : LoopResult × List Round :=
  let hasUnstagedFiles := !(lodashDifference unstagedFiles conflictingFiles).isEmpty
  let hasConflictingFiles := !conflictingFiles.isEmpty
  if !hasConflictingFiles && !hasUnstagedFiles then
    (LoopResult.resolved,
      [⟨retries, conflictingFiles, unstagedFiles, false, none, false⟩])
  else
    let didConfirm := env.confirmPrompt retries
    if !didConfirm then
      (LoopResult.aborted,
        [⟨retries, conflictingFiles, unstagedFiles, true, some false, false⟩])
    else if retries > MAX_RETRIES then
      (LoopResult.retryLimitExceeded,
        [⟨retries, conflictingFiles, unstagedFiles, true, some true, false⟩])
    else
      let nextConflicting :=
        (env.getConflictingFiles (retries + 1)).map ConflictingFile.absolute
      let nextUnstaged := env.getUnstagedFiles (retries + 1)
      let next :=
        listConflictingAndUnstagedFiles env (retries + 1) nextConflicting nextUnstaged
      (next.1,
        ⟨retries, conflictingFiles, unstagedFiles, true, some true, true⟩ :: next.2)
termination_by MAX_RETRIES + 1 - retries
decreasing_by simp only [MAX_RETRIES] at *; omega

/-- Observable calls the controller makes, in program order. -/
inductive Event
  | autoFixCall (files : List String) (directory : String)
  | hintLookup (conflictingFiles : List String)
  | editorLaunch (editor : String) (repoPath : String)
  | prompt (retries : Nat) (conflictingFiles unstagedFiles : List String)
  deriving Repr, DecidableEq

def Event.isPrompt : Event → Bool
  | .prompt _ _ _ => true
  | _ => false

def Event.isHintLookup : Event → Bool
  | .hintLookup _ => true
  | _ => false

def Event.isEditorLaunch : Event → Bool
  | .editorLaunch _ _ => true
  | _ => false

/-- The prompt events of a loop trace: one per round that showed the prompt,
carrying the very lists the prompt message was built from. -/
def promptEvents (rounds : List Round) : List Event :=
  (rounds.filter (fun x => x.prompted)).map
    (fun x => Event.prompt x.retries x.conflictingFiles x.unstagedFiles)

/-- Outcome of `cherrypickAndHandleConflicts` when it returns normally. -/
inductive CtrlOutcome
  | noConflict
  | autoResolved
  | manuallyResolved
  deriving Repr, DecidableEq

/-- Error taxonomy: `BackportError({code: 'merge-conflict-exception', ...})`,
`BackportError({code: 'abort-conflict-resolution-exception'})`, the plain
`Error` for the retry ceiling, and opaque exceptions thrown by external
collaborators (cherrypick, commitChanges), identified by a tag. -/
inductive BackportErr
  | mergeConflict (commitsWithoutBackports : List String)
      (conflictingFiles : List String)
  | abortConflictResolution
  | maxRetriesExceeded (maxRetries : Nat)
  | thrown (tag : Nat)
  deriving Repr, DecidableEq

/-- Return value of the `cherrypick` git primitive (destructured at
waitForCherrypick.ts lines 74-79). -/
structure CherrypickRes where
  conflictingFiles : List ConflictingFile
  unstagedFiles : List String
  needsResolving : Bool
  deriving Repr, DecidableEq

/-- The slice of `ValidConfigOptions` the conflict-resolution phase reads.
`repoPath` stands for `getRepoPath(options)`. -/
structure Options where
  interactive : Bool
  autoFixConflicts : Option (List String → String → Bool)
  editor : Option String
  repoPath : String

/-- Environment of the controller: result of the `cherrypick` call, the hint
finder `getCommitsWithoutBackports` (as a function of the relative
conflicting-file list it receives), and the loop's environment. -/
structure CtrlEnv where
  cherrypickResult : Except BackportErr CherrypickRes
  getCommitsWithoutBackports : List String → List String
  loopEnv : LoopEnv

/-- Result of the conflict-resolution phase plus its observable trace. -/
structure CtrlOut where
  result : Except BackportErr CtrlOutcome
  events : List Event
  loopRounds : List Round
  deriving Repr

/-- Continuation of `cherrypickAndHandleConflicts` after the automatic resolver
did not fix the conflicts (waitForCherrypick.ts lines 116-167): truncate the
relative paths to the first 50, query the hint finder with them, throw the
merge-conflict error when not interactive, otherwise launch the editor if
configured and enter the loop with retries 0, the full absolute conflicting
list and the unstaged list from the cherry-pick. -/
def handleUnresolvedConflicts (env : CtrlEnv) (options : Options)
    (res : CherrypickRes) (events0 : List Event) : CtrlOut :=
  let conflictingFilesRelative :=
    (res.conflictingFiles.map ConflictingFile.relative).take 50
  let commitsWithoutBackports :=
    env.getCommitsWithoutBackports conflictingFilesRelative
  let events1 := events0 ++ [Event.hintLookup conflictingFilesRelative]
  if !options.interactive then
    ⟨.error (.mergeConflict commitsWithoutBackports conflictingFilesRelative),
      events1, []⟩
  else
    let events2 := events1 ++
      (match options.editor with
        | some editor => [Event.editorLaunch editor options.repoPath]
        | none => [])
    let out := listConflictingAndUnstagedFiles env.loopEnv 0
      (res.conflictingFiles.map ConflictingFile.absolute) res.unstagedFiles
    let result : Except BackportErr CtrlOutcome :=
      match out.1 with
      | .resolved => .ok .manuallyResolved
      | .aborted => .error .abortConflictResolution
      | .retryLimitExceeded => .error (.maxRetriesExceeded MAX_RETRIES)
    ⟨result, events2 ++ promptEvents out.2, out.2⟩

/-- `cherrypickAndHandleConflicts` (waitForCherrypick.ts lines 52-167):
rethrow a cherrypick exception; return when `needsResolving` is false; invoke
the automatic resolver, when configured, with the absolute conflicting paths
and the repository path, and return immediately when it reports success;
otherwise continue with hint lookup and interactive resolution. -/
def cherrypickAndHandleConflicts (env : CtrlEnv) (options : Options) : CtrlOut :=
  match env.cherrypickResult with
  | .error e => ⟨.error e, [], []⟩
  | .ok res =>
    if !res.needsResolving then
      ⟨.ok .noConflict, [], []⟩
    else
      match options.autoFixConflicts with
      | some autoFix =>
        let files := res.conflictingFiles.map ConflictingFile.absolute
        let events0 := [Event.autoFixCall files options.repoPath]
        if autoFix files options.repoPath then
          ⟨.ok .autoResolved, events0, []⟩
        else
          handleUnresolvedConflicts env options res events0
      | none => handleUnresolvedConflicts env options res []

/-- Environment of the orchestrator: the controller's environment plus the
result of the final `commitChanges` call. -/
structure OrchEnv where
  ctrlEnv : CtrlEnv
  commitChangesResult : Except BackportErr Unit

/-- Result of `waitForCherrypick` plus whether the final commit step ran. -/
structure OrchOut where
  result : Except BackportErr Unit
  ctrl : CtrlOut
  commitAttempted : Bool
  deriving Repr

/-- `waitForCherrypick` (waitForCherrypick.ts lines 21-50): run the conflict
phase (exceptions propagate unchanged), then run `commitChanges`, rethrowing
its exception unchanged after failing the spinner. -/
def waitForCherrypick (env : OrchEnv) (options : Options) : OrchOut :=
  let ctrlOut := cherrypickAndHandleConflicts env.ctrlEnv options
  match ctrlOut.result with
  | .error e => ⟨.error e, ctrlOut, false⟩
  | .ok _ =>
    match env.commitChangesResult with
    | .error e => ⟨.error e, ctrlOut, true⟩
    | .ok _ => ⟨.ok (), ctrlOut, true⟩

/-- Environment of `addLabelsToPullRequest`: the `new Octokit(...)` client
construction and the `octokit.issues.addLabels(...)` request, each of which may
throw (tags identify the exception). -/
structure AddLabelsEnv where
  octokitConstruction : Except Nat Unit
  addLabelsRequest : Except Nat Unit

/-- Observable outcome of `addLabelsToPullRequest`: which spinner transition ran
and whether the error was logged. -/
structure AddLabelsOut where
  spinnerSucceeded : Bool
  spinnerFailed : Bool
  loggedError : Bool
  deriving Repr, DecidableEq

/-- The body of the `try` block in `addLabelsToPullRequest`
(addLabelsToPullRequest.ts lines 21-35): construct the client, then issue the
add-labels request. -/
def addLabelsTryBody (env : AddLabelsEnv) : Except Nat Unit := do
  let _ ← env.octokitConstruction
  env.addLabelsRequest

/-- `addLabelsToPullRequest` (addLabelsToPullRequest.ts lines 6-40): any
exception of the try body is caught, the spinner failed and the error logged;
the function itself always resolves. `pullNumber` and `labels` are carried for
fidelity to the signature; the model's behavior does not depend on them. -/
def addLabelsToPullRequest (env : AddLabelsEnv) (pullNumber : Nat)
    (labels : List String) : Except Nat AddLabelsOut :=
  match addLabelsTryBody env with
  | .ok _ => .ok ⟨true, false, false⟩
  | .error _ => .ok ⟨false, true, true⟩

/-! ### Concrete fixtures used by witnesses and counterexamples -/

/-- The Boolean settlement condition of one round, exactly as the loop computes
it: conflicting files empty and no unstaged file outside the conflicting set. -/
def settledCheck (conflictingFiles unstagedFiles : List String) : Bool :=
  conflictingFiles.isEmpty && (lodashDifference unstagedFiles conflictingFiles).isEmpty

/-- A round in which the user confirmed while conflicting files remained. -/
def confirmedWithConflicts (x : Round) : Bool :=
  (x.confirmAnswer == some true) && !x.conflictingFiles.isEmpty

/-- One conflicting file. -/
def conflictA : ConflictingFile := ⟨"/myBackportRepo/conflict.txt", "conflict.txt"⟩

/-- Tree env: never confirms, always-clean tree. -/
def envTrivial : LoopEnv := ⟨fun _ => false, fun _ => [], fun _ => []⟩

/-- Tree env: user always confirms, the conflict never goes away. -/
def envAllConfirm : LoopEnv := ⟨fun _ => true, fun _ => [conflictA], fun _ => []⟩

/-- Tree env: user confirms rounds 0..100 (101 confirmations) and declines on
round 101; the conflict never goes away. -/
def envConfirmUpTo100 : LoopEnv :=
  ⟨fun n => decide (n < 101), fun _ => [conflictA], fun _ => []⟩

/-- Tree env: user declines immediately. -/
def envDecline : LoopEnv := ⟨fun _ => false, fun _ => [], fun _ => []⟩

/-- A cherry-pick result with one conflicting file. -/
def resB : CherrypickRes := ⟨[conflictA], [], true⟩

/-- 75 conflicting files, for the display-cap scenario. -/
def files75 : List ConflictingFile :=
  (List.range 75).map
    (fun i => ⟨"/myBackportRepo/src/file" ++ toString i, "src/file" ++ toString i⟩)

/-- Controller env for the display-cap scenario: the cherry-pick reports the 75
conflicting files, hints echo their input, the user declines at round 0. -/
def envC3 : CtrlEnv := ⟨.ok ⟨files75, [], true⟩, fun rel => rel, envDecline⟩

def optsC3 : Options := ⟨true, none, none, "/myBackportRepo"⟩

def envC4 : CtrlEnv := ⟨.ok resB, fun rel => rel, envTrivial⟩

def optsC4 : Options := ⟨false, none, none, "/myBackportRepo"⟩

def optsC5 : Options := ⟨true, some (fun _ _ => true), none, "/myBackportRepo"⟩

def optsC8 : Options := ⟨true, none, some "code", "/myBackportRepo"⟩

/-- Orchestrator env whose cherry-pick throws an opaque exception. -/
def envOrchW : OrchEnv := ⟨⟨.error (.thrown 7), fun rel => rel, envTrivial⟩, .ok ()⟩

/-! ### Small-step characterization of the interactive loop -/

theorem loop_settled (env : LoopEnv) (r : Nat) (c u : List String)
    (h : settledCheck c u = true) :
    listConflictingAndUnstagedFiles env r c u =
      (LoopResult.resolved, [⟨r, c, u, false, none, false⟩]) := by
  rw [listConflictingAndUnstagedFiles]
  simp only [settledCheck, Bool.and_eq_true] at h
  simp [h.1, h.2]

theorem loop_decline (env : LoopEnv) (r : Nat) (c u : List String)
    (h : settledCheck c u = false) (hconf : env.confirmPrompt r = false) :
    listConflictingAndUnstagedFiles env r c u =
      (LoopResult.aborted, [⟨r, c, u, true, some false, false⟩]) := by
  rw [listConflictingAndUnstagedFiles]
  simp only [settledCheck, Bool.and_eq_false_iff] at h
  rcases h with h | h <;> simp [h, hconf]

theorem loop_limit (env : LoopEnv) (r : Nat) (c u : List String)
    (h : settledCheck c u = false) (hconf : env.confirmPrompt r = true)
    (hr : r > MAX_RETRIES) :
    listConflictingAndUnstagedFiles env r c u =
      (LoopResult.retryLimitExceeded, [⟨r, c, u, true, some true, false⟩]) := by
  rw [listConflictingAndUnstagedFiles]
  simp only [settledCheck, Bool.and_eq_false_iff] at h
  rcases h with h | h <;> simp [h, hconf, hr]

theorem loop_step (env : LoopEnv) (r : Nat) (c u : List String)
    (h : settledCheck c u = false) (hconf : env.confirmPrompt r = true)
    (hr : ¬ r > MAX_RETRIES) :
    listConflictingAndUnstagedFiles env r c u =
      ((listConflictingAndUnstagedFiles env (r + 1)
          ((env.getConflictingFiles (r + 1)).map ConflictingFile.absolute)
          (env.getUnstagedFiles (r + 1))).1,
        ⟨r, c, u, true, some true, true⟩ ::
          (listConflictingAndUnstagedFiles env (r + 1)
            ((env.getConflictingFiles (r + 1)).map ConflictingFile.absolute)
            (env.getUnstagedFiles (r + 1))).2) := by
  conv_lhs => rw [listConflictingAndUnstagedFiles]
  simp only [settledCheck, Bool.and_eq_false_iff] at h
  rcases h with h | h <;> simp [h, hconf, hr]

/-- The first recorded round of any loop run carries exactly the entry
snapshot. -/
theorem loop_trace_head (env : LoopEnv) (r : Nat) (c u : List String) :
    ∃ p a q rest,
      (listConflictingAndUnstagedFiles env r c u).2 = ⟨r, c, u, p, a, q⟩ :: rest := by
  by_cases hs : settledCheck c u = true
  · exact ⟨false, none, false, [], by rw [loop_settled env r c u hs]⟩
  · rw [Bool.not_eq_true] at hs
    by_cases hc : env.confirmPrompt r = true
    · by_cases hr : r > MAX_RETRIES
      · exact ⟨true, some true, false, [], by rw [loop_limit env r c u hs hc hr]⟩
      · exact ⟨true, some true, true, _, by rw [loop_step env r c u hs hc hr]⟩
    · rw [Bool.not_eq_true] at hc
      exact ⟨true, some false, false, [], by rw [loop_decline env r c u hs hc]⟩

/-- Bridge between the raw guard of the source and `settledCheck`. -/
theorem settledCheck_guard (c u : List String) :
    (!(!c.isEmpty) && !(!(lodashDifference u c).isEmpty)) = settledCheck c u := by
  simp [settledCheck]

theorem guard_true (c u : List String)
    (h : (!(!c.isEmpty) && !(!(lodashDifference u c).isEmpty)) = true) :
    settledCheck c u = true := by
  rw [← settledCheck_guard]; exact h

theorem guard_false (c u : List String)
    (h : ¬(!(!c.isEmpty) && !(!(lodashDifference u c).isEmpty)) = true) :
    settledCheck c u = false := by
  rw [← settledCheck_guard]; simpa using h

theorem bool_off {b : Bool} (h : (!b) = true) : b = false := by simpa using h

theorem bool_on {b : Bool} (h : ¬(!b) = true) : b = true := by simpa using h

/-- The loop returns in its resolved branch iff the snapshot of its final round
satisfies the settlement condition. -/
theorem loop_resolved_iff (env : LoopEnv) (r : Nat) (c u : List String) :
    (listConflictingAndUnstagedFiles env r c u).1 = LoopResult.resolved ↔
      ∃ last, (listConflictingAndUnstagedFiles env r c u).2.getLast? = some last ∧
        settledCheck last.conflictingFiles last.unstagedFiles = true := by
  induction r, c, u using listConflictingAndUnstagedFiles.induct env with
  | case1 r c u hu hcf h =>
    have hs := guard_true c u h
    rw [loop_settled env r c u hs]
    simp [hs]
  | case2 r c u hu hcf h hd hconf =>
    have hs := guard_false c u h
    rw [loop_decline env r c u hs (bool_off hconf)]
    simp [hs]
  | case3 r c u hu hcf h hd hconf hr =>
    have hs := guard_false c u h
    rw [loop_limit env r c u hs (bool_on hconf) hr]
    simp [hs]
  | case4 r c u hu hcf h hd hconf hr hnc hnu ih =>
    have hs := guard_false c u h
    rw [loop_step env r c u hs (bool_on hconf) hr]
    obtain ⟨p, a, q, rest, hrest⟩ :=
      loop_trace_head env (r + 1)
        ((env.getConflictingFiles (r + 1)).map ConflictingFile.absolute)
        (env.getUnstagedFiles (r + 1))
    rw [show (listConflictingAndUnstagedFiles env (r + 1)
        ((env.getConflictingFiles (r + 1)).map ConflictingFile.absolute)
        (env.getUnstagedFiles (r + 1))).1 = _ from rfl, ih, hrest]
    simp [List.getLast?_cons_cons]

/-- Every round after the first checks (and displays) exactly the freshly
re-queried working-tree state at its own counter value. -/
theorem loop_tail_fresh (env : LoopEnv) (r : Nat) (c u : List String) :
    ∀ x ∈ (listConflictingAndUnstagedFiles env r c u).2.tail,
      x.conflictingFiles =
        (env.getConflictingFiles x.retries).map ConflictingFile.absolute ∧
      x.unstagedFiles = env.getUnstagedFiles x.retries := by
  induction r, c, u using listConflictingAndUnstagedFiles.induct env with
  | case1 r c u hu hcf h =>
    rw [loop_settled env r c u (guard_true c u h)]
    simp
  | case2 r c u hu hcf h hd hconf =>
    rw [loop_decline env r c u (guard_false c u h) (bool_off hconf)]
    simp
  | case3 r c u hu hcf h hd hconf hr =>
    rw [loop_limit env r c u (guard_false c u h) (bool_on hconf) hr]
    simp
  | case4 r c u hu hcf h hd hconf hr hnc hnu ih =>
    rw [loop_step env r c u (guard_false c u h) (bool_on hconf) hr]
    intro x hx
    obtain ⟨p, a, q, rest, hrest⟩ :=
      loop_trace_head env (r + 1)
        ((env.getConflictingFiles (r + 1)).map ConflictingFile.absolute)
        (env.getUnstagedFiles (r + 1))
    rw [List.tail_cons, hrest] at hx
    rcases List.mem_cons.mp hx with hx1 | hx1
    · subst hx1; exact ⟨rfl, rfl⟩
    · apply ih
      show x ∈ (listConflictingAndUnstagedFiles env (r + 1)
        ((env.getConflictingFiles (r + 1)).map ConflictingFile.absolute)
        (env.getUnstagedFiles (r + 1))).2.tail
      rw [hrest, List.tail_cons]
      exact hx1

/-- The counter values of the recorded rounds are consecutive, starting at the
entry value. -/
theorem loop_trace_retries (env : LoopEnv) (r : Nat) (c u : List String) :
    (listConflictingAndUnstagedFiles env r c u).2.map Round.retries =
      List.range' r (listConflictingAndUnstagedFiles env r c u).2.length := by
  induction r, c, u using listConflictingAndUnstagedFiles.induct env with
  | case1 r c u hu hcf h =>
    rw [loop_settled env r c u (guard_true c u h)]
    simp [List.range']
  | case2 r c u hu hcf h hd hconf =>
    rw [loop_decline env r c u (guard_false c u h) (bool_off hconf)]
    simp [List.range']
  | case3 r c u hu hcf h hd hconf hr =>
    rw [loop_limit env r c u (guard_false c u h) (bool_on hconf) hr]
    simp [List.range']
  | case4 r c u hu hcf h hd hconf hr hnc hnu ih =>
    rw [loop_step env r c u (guard_false c u h) (bool_on hconf) hr]
    have ih2 : (listConflictingAndUnstagedFiles env (r + 1)
        ((env.getConflictingFiles (r + 1)).map ConflictingFile.absolute)
        (env.getUnstagedFiles (r + 1))).2.map Round.retries =
      List.range' (r + 1) (listConflictingAndUnstagedFiles env (r + 1)
        ((env.getConflictingFiles (r + 1)).map ConflictingFile.absolute)
        (env.getUnstagedFiles (r + 1))).2.length := ih
    simp only [List.map_cons, List.length_cons, ih2, List.range'_succ]

/-- The loop records at most `MAX_RETRIES + 2 - r` rounds (102 from a fresh
entry): the recursion stops once the counter passes the ceiling. -/
theorem loop_length_le (env : LoopEnv) (r : Nat) (c u : List String) :
    (listConflictingAndUnstagedFiles env r c u).2.length ≤
      MAX_RETRIES + 1 - r + 1 := by
  induction r, c, u using listConflictingAndUnstagedFiles.induct env with
  | case1 r c u hu hcf h =>
    rw [loop_settled env r c u (guard_true c u h)]
    simp only [List.length_singleton]
    omega
  | case2 r c u hu hcf h hd hconf =>
    rw [loop_decline env r c u (guard_false c u h) (bool_off hconf)]
    simp only [List.length_singleton]
    omega
  | case3 r c u hu hcf h hd hconf hr =>
    rw [loop_limit env r c u (guard_false c u h) (bool_on hconf) hr]
    simp only [List.length_singleton]
    omega
  | case4 r c u hu hcf h hd hconf hr hnc hnu ih =>
    rw [loop_step env r c u (guard_false c u h) (bool_on hconf) hr]
    have ih2 : (listConflictingAndUnstagedFiles env (r + 1)
        ((env.getConflictingFiles (r + 1)).map ConflictingFile.absolute)
        (env.getUnstagedFiles (r + 1))).2.length ≤
      MAX_RETRIES + 1 - (r + 1) + 1 := ih
    simp only [List.length_cons]
    simp only [MAX_RETRIES] at ih2 hr ⊢
    omega

/-- When the user confirms every round and the conflict never goes away, the
loop runs rounds `r, r+1, ..., MAX_RETRIES + 1` and throws the retry-limit
error at the round entered with counter `MAX_RETRIES + 1`; every recorded round
is a confirmed round with conflicts remaining. -/
theorem loop_always_confirm (env : LoopEnv)
    (hconf : ∀ n, env.confirmPrompt n = true)
    (hfiles : ∀ n, env.getConflictingFiles n ≠ []) :
    ∀ r c u, r ≤ MAX_RETRIES + 1 → c ≠ [] →
      (listConflictingAndUnstagedFiles env r c u).1 = LoopResult.retryLimitExceeded ∧
      (listConflictingAndUnstagedFiles env r c u).2.countP confirmedWithConflicts =
        MAX_RETRIES + 2 - r ∧
      (listConflictingAndUnstagedFiles env r c u).2.length = MAX_RETRIES + 2 - r := by
  intro r c u
  induction r, c, u using listConflictingAndUnstagedFiles.induct env with
  | case1 r c u hu hcf h =>
    intro _ hc
    have hs := guard_true c u h
    simp only [settledCheck, Bool.and_eq_true, List.isEmpty_iff] at hs
    exact absurd hs.1 hc
  | case2 r c u hu hcf h hd hconf2 =>
    intro _ _
    exact absurd (hconf r) (by simpa using bool_off hconf2)
  | case3 r c u hu hcf h hd hconf2 hr =>
    intro hle hc
    have hr101 : r = MAX_RETRIES + 1 := by omega
    rw [loop_limit env r c u (guard_false c u h) (bool_on hconf2) hr]
    refine ⟨rfl, ?_, ?_⟩
    · simp [List.countP_cons, confirmedWithConflicts, hc, hr101]
    · simp [hr101]
  | case4 r c u hu hcf h hd hconf2 hr hnc hnu ih =>
    intro hle hc
    rw [loop_step env r c u (guard_false c u h) (bool_on hconf2) hr]
    have hc2 : (env.getConflictingFiles (r + 1)).map ConflictingFile.absolute ≠ [] := by
      simpa using hfiles (r + 1)
    have ih2 := ih (by simp only [MAX_RETRIES] at hr ⊢; omega) hc2
    refine ⟨ih2.1, ?_, ?_⟩
    · have hp : confirmedWithConflicts ⟨r, c, u, true, some true, true⟩ = true := by
        simp [confirmedWithConflicts, hc]
      simp [List.countP_cons, hp, ih2.2.1]
      simp only [MAX_RETRIES] at hr ⊢
      omega
    · simp only [List.length_cons, ih2.2.2]
      simp only [MAX_RETRIES] at hr ⊢
      omega

/-- When the user confirms rounds `r..MAX_RETRIES` and declines at round
`MAX_RETRIES + 1` while the conflict never goes away, the run ends in the abort
branch after `MAX_RETRIES + 1 - r` confirmed rounds with conflicts remaining. -/
theorem loop_confirm_until_101 (env : LoopEnv)
    (hconf : ∀ n, n ≤ MAX_RETRIES → env.confirmPrompt n = true)
    (hconf101 : env.confirmPrompt (MAX_RETRIES + 1) = false)
    (hfiles : ∀ n, env.getConflictingFiles n ≠ []) :
    ∀ r c u, r ≤ MAX_RETRIES + 1 → c ≠ [] →
      (listConflictingAndUnstagedFiles env r c u).1 = LoopResult.aborted ∧
      (listConflictingAndUnstagedFiles env r c u).2.countP confirmedWithConflicts =
        MAX_RETRIES + 1 - r := by
  intro r c u
  induction r, c, u using listConflictingAndUnstagedFiles.induct env with
  | case1 r c u hu hcf h =>
    intro _ hc
    have hs := guard_true c u h
    simp only [settledCheck, Bool.and_eq_true, List.isEmpty_iff] at hs
    exact absurd hs.1 hc
  | case2 r c u hu hcf h hd hconf2 =>
    intro hle hc
    have hdf : env.confirmPrompt r = false := bool_off hconf2
    have hr101 : r = MAX_RETRIES + 1 := by
      by_contra hne
      have hle2 : r ≤ MAX_RETRIES := by omega
      rw [hconf r hle2] at hdf
      exact Bool.noConfusion hdf
    rw [loop_decline env r c u (guard_false c u h) hdf]
    refine ⟨rfl, ?_⟩
    simp [List.countP_cons, confirmedWithConflicts, hr101]
  | case3 r c u hu hcf h hd hconf2 hr =>
    intro hle hc
    have hr101 : r = MAX_RETRIES + 1 := by omega
    have hdt : env.confirmPrompt r = true := bool_on hconf2
    rw [hr101, hconf101] at hdt
    exact Bool.noConfusion hdt
  | case4 r c u hu hcf h hd hconf2 hr hnc hnu ih =>
    intro hle hc
    rw [loop_step env r c u (guard_false c u h) (bool_on hconf2) hr]
    have hc2 : (env.getConflictingFiles (r + 1)).map ConflictingFile.absolute ≠ [] := by
      simpa using hfiles (r + 1)
    have ih2 := ih (by simp only [MAX_RETRIES] at hr ⊢; omega) hc2
    refine ⟨ih2.1, ?_⟩
    have hp : confirmedWithConflicts ⟨r, c, u, true, some true, true⟩ = true := by
      simp [confirmedWithConflicts, hc]
    simp [List.countP_cons, hp, ih2.2]
    simp only [MAX_RETRIES] at hr ⊢
    omega

/-! ### Claim theorems: the interactive resolution loop -/

/-- The settlement condition in propositional form. -/
theorem settledCheck_iff (c u : List String) :
    settledCheck c u = true ↔ c = [] ∧ lodashDifference u c = [] := by
  simp [settledCheck, List.isEmpty_iff]

/-- The resolved-branch characterization in propositional form. -/
theorem loop_resolved_prop (env : LoopEnv) (r : Nat) (c u : List String) :
    (listConflictingAndUnstagedFiles env r c u).1 = LoopResult.resolved ↔
      ∃ last, (listConflictingAndUnstagedFiles env r c u).2.getLast? = some last ∧
        last.conflictingFiles = [] ∧
        lodashDifference last.unstagedFiles last.conflictingFiles = [] := by
  rw [loop_resolved_iff]
  constructor
  · rintro ⟨last, h1, h2⟩
    obtain ⟨h3, h4⟩ := (settledCheck_iff _ _).mp h2
    exact ⟨last, h1, h3, h4⟩
  · rintro ⟨last, h1, h2, h3⟩
    exact ⟨last, h1, (settledCheck_iff _ _).mpr ⟨h2, h3⟩⟩

/-- C1: the interactive resolution loop terminates in its resolved branch
exactly when the current round's snapshot satisfies `conflicting = ∅` and
`unstaged \ conflicting = ∅`; on every round after the first this check uses
only the freshly re-queried conflicting-file and unstaged-file sets at that
round's counter value, never the lists passed at entry. -/
theorem C1_loop_fixed_point (env : LoopEnv) (retries : Nat) (c u : List String) :
    ((listConflictingAndUnstagedFiles env retries c u).1 = LoopResult.resolved ↔
      ∃ last, (listConflictingAndUnstagedFiles env retries c u).2.getLast? = some last ∧
        last.conflictingFiles = [] ∧
        lodashDifference last.unstagedFiles last.conflictingFiles = []) ∧
    ∀ x ∈ (listConflictingAndUnstagedFiles env retries c u).2.tail,
      x.conflictingFiles = (env.getConflictingFiles x.retries).map ConflictingFile.absolute ∧
      x.unstagedFiles = env.getUnstagedFiles x.retries :=
  ⟨loop_resolved_prop env retries c u, loop_tail_fresh env retries c u⟩

/-- Witness for C1: on an immediately settled snapshot the loop resolves. -/
theorem C1_witness :
    (listConflictingAndUnstagedFiles envTrivial 0 [] []).1 = LoopResult.resolved :=
  (C1_loop_fixed_point envTrivial 0 [] []).1.mpr
    ⟨⟨0, [], [], false, none, false⟩,
      by rw [loop_settled envTrivial 0 [] [] rfl]; rfl, rfl, rfl⟩

/-- C2 counterexample: with a conflict that never goes away and a user who
confirms at rounds 0..100 — 101 consecutive confirmed rounds with conflicts
remaining — the loop does not fail with the retry-limit error; it recurses into
round 101 and prompts again (here the user declines, so the run aborts).  101
confirmed rounds therefore do not yield RetryLimitExceededError. -/
theorem C2_counterexample :
    (listConflictingAndUnstagedFiles envConfirmUpTo100 0
        ["/myBackportRepo/conflict.txt"] []).2.countP confirmedWithConflicts = 101 ∧
    (listConflictingAndUnstagedFiles envConfirmUpTo100 0
        ["/myBackportRepo/conflict.txt"] []).1 ≠ LoopResult.retryLimitExceeded := by
  have h := loop_confirm_until_101 envConfirmUpTo100
    (fun n hn => by
      simp only [envConfirmUpTo100, decide_eq_true_eq]
      simp only [MAX_RETRIES] at hn
      omega)
    (by rfl)
    (fun n => by simp [envConfirmUpTo100])
    0 ["/myBackportRepo/conflict.txt"] [] (Nat.zero_le _) (by simp)
  refine ⟨?_, ?_⟩
  · rw [h.2]
    simp [MAX_RETRIES]
  · rw [h.1]
    simp

/-- C2 (amended): the retry check compares the pre-increment counter with
`MAX_RETRIES`, so when the user confirms at every round while conflicts
remain, the loop recurses through rounds 0..101 and fails with the
retry-limit error only at the round entered with counter 101 — after 102
(not 101) consecutive confirmed rounds with conflicts remaining; the
retry-limit error is distinct from the user-abort error. -/
theorem C2_retry_ceiling (env : LoopEnv)
    (hconf : ∀ n, env.confirmPrompt n = true)
    (hfiles : ∀ n, env.getConflictingFiles n ≠ [])
    (c u : List String) (hc : c ≠ []) :
    (listConflictingAndUnstagedFiles env 0 c u).1 = LoopResult.retryLimitExceeded ∧
    (listConflictingAndUnstagedFiles env 0 c u).2.countP confirmedWithConflicts =
      MAX_RETRIES + 2 ∧
    LoopResult.retryLimitExceeded ≠ LoopResult.aborted := by
  have h := loop_always_confirm env hconf hfiles 0 c u (Nat.zero_le _) hc
  exact ⟨h.1, by simpa using h.2.1, by simp⟩

/-- Witness for C2 (amended) at a concrete always-confirm environment. -/
theorem C2_witness :
    (listConflictingAndUnstagedFiles envAllConfirm 0
      ["/myBackportRepo/conflict.txt"] []).1 = LoopResult.retryLimitExceeded :=
  (C2_retry_ceiling envAllConfirm (fun _ => rfl) (fun _ => by simp [envAllConfirm])
    ["/myBackportRepo/conflict.txt"] [] (by simp)).1

/-- C6: if the user declines the confirmation prompt at any round, the loop
fails immediately with the abort error: the single recorded round shows no
working-tree re-query (`requeriedTree = false`) and no recursion — the retry
check (which follows the decline check in the source) is never reached and no
tree mutation is attempted. -/
theorem C6_abort_on_decline (env : LoopEnv) (retries : Nat) (c u : List String)
    (hns : settledCheck c u = false)
    (hconf : env.confirmPrompt retries = false) :
    listConflictingAndUnstagedFiles env retries c u =
      (LoopResult.aborted, [⟨retries, c, u, true, some false, false⟩]) :=
  loop_decline env retries c u hns hconf

/-- Witness for C6: a single decline at round 0 yields the abort error. -/
theorem C6_witness :
    listConflictingAndUnstagedFiles envDecline 0 ["/myBackportRepo/conflict.txt"] [] =
      (LoopResult.aborted,
        [⟨0, ["/myBackportRepo/conflict.txt"], [], true, some false, false⟩]) :=
  C6_abort_on_decline envDecline 0 ["/myBackportRepo/conflict.txt"] [] rfl rfl

/-- C7 counterexample: with an always-confirming user and a conflict that never
goes away, the trace of a run entered with counter 0 contains a round entered
with counter `MAX_RETRIES + 1 = 101`, i.e. a recursive round is entered with a
counter value exceeding the claimed bound `MAX_RETRIES`. -/
theorem C7_counterexample :
    MAX_RETRIES + 1 ∈
      ((listConflictingAndUnstagedFiles envAllConfirm 0
        ["/myBackportRepo/conflict.txt"] []).2.map Round.retries) := by
  have hlen := (loop_always_confirm envAllConfirm (fun _ => rfl)
    (fun _ => by simp [envAllConfirm]) 0 ["/myBackportRepo/conflict.txt"] []
    (Nat.zero_le _) (by simp)).2.2
  rw [loop_trace_retries, hlen]
  simp only [MAX_RETRIES]
  simp [List.mem_range'_1]

/-- C7 (amended): starting from 0 the counter increases by exactly one per
round (the recorded counter values are `0, 1, 2, ...`), and every round is
entered with `retries ≤ MAX_RETRIES + 1 = 101`: because the check compares the
pre-increment counter, one round beyond `MAX_RETRIES` is entered before the
loop fails, so the tight invariant is `0 ≤ retries ≤ MAX_RETRIES + 1`. -/
theorem C7_retries_invariant (env : LoopEnv) (c u : List String) :
    ((listConflictingAndUnstagedFiles env 0 c u).2.map Round.retries =
      List.range' 0 (listConflictingAndUnstagedFiles env 0 c u).2.length) ∧
    ∀ x ∈ (listConflictingAndUnstagedFiles env 0 c u).2,
      x.retries ≤ MAX_RETRIES + 1 := by
  refine ⟨loop_trace_retries env 0 c u, ?_⟩
  intro x hx
  have hmem : x.retries ∈
      (listConflictingAndUnstagedFiles env 0 c u).2.map Round.retries :=
    List.mem_map_of_mem Round.retries hx
  rw [loop_trace_retries, List.mem_range'_1] at hmem
  have hlen := loop_length_le env 0 c u
  simp only [MAX_RETRIES] at hmem hlen ⊢
  omega

/-- Witness for C7 (amended) at a concrete environment. -/
theorem C7_witness :
    (listConflictingAndUnstagedFiles envTrivial 0 [] []).2.map Round.retries =
      List.range' 0 (listConflictingAndUnstagedFiles envTrivial 0 [] []).2.length :=
  (C7_retries_invariant envTrivial [] []).1

/-! ### Claim theorems: the conflict-resolution controller -/

/-- When the cherry-pick reports conflicts and the automatic resolver is absent
or fails, the controller reaches the unresolved-conflicts continuation; the
events so far contain no prompt, no hint lookup and no editor launch. -/
theorem ctrl_reaches_handle (env : CtrlEnv) (options : Options)
    (res : CherrypickRes)
    (hcp : env.cherrypickResult = .ok res)
    (hneeds : res.needsResolving = true)
    (hauto : ∀ f, options.autoFixConflicts = some f →
      f (res.conflictingFiles.map ConflictingFile.absolute) options.repoPath = false) :
    ∃ events0, cherrypickAndHandleConflicts env options =
        handleUnresolvedConflicts env options res events0 ∧
      ∀ e ∈ events0, e.isPrompt = false ∧ e.isHintLookup = false ∧
        e.isEditorLaunch = false := by
  cases hopt : options.autoFixConflicts with
  | none =>
    refine ⟨[], ?_, by simp⟩
    simp [cherrypickAndHandleConflicts, hcp, hneeds, hopt]
  | some f =>
    refine ⟨[Event.autoFixCall (res.conflictingFiles.map ConflictingFile.absolute)
      options.repoPath], ?_, ?_⟩
    · simp [cherrypickAndHandleConflicts, hcp, hneeds, hopt, hauto f hopt]
    · intro e he
      rcases List.mem_singleton.mp he with rfl
      exact ⟨rfl, rfl, rfl⟩

/-- Prompt events are neither hint lookups nor editor launches. -/
theorem promptEvents_not_editor (rounds : List Round) :
    ∀ e ∈ promptEvents rounds,
      e.isEditorLaunch = false ∧ e.isHintLookup = false := by
  intro e he
  obtain ⟨x, _, rfl⟩ := List.mem_map.mp he
  exact ⟨rfl, rfl⟩

/-- `promptEvents` never contains a hint-lookup event. -/
theorem promptEvents_filter_hint (rounds : List Round) :
    (promptEvents rounds).filter Event.isHintLookup = [] := by
  rw [List.filter_eq_nil_iff]
  intro e he
  simp [(promptEvents_not_editor rounds e he).2]

/-- C5: whenever an automatic resolver is configured and reports success on the
conflicting files (invoked with their absolute paths and the repository path),
the controller returns the auto-resolved outcome immediately: the event trace
is exactly the one resolver call — no hint lookup, no prompt, no loop round. -/
theorem C5_auto_resolve_short_circuits (env : CtrlEnv) (options : Options)
    (res : CherrypickRes) (autoFix : List String → String → Bool)
    (hcp : env.cherrypickResult = .ok res)
    (hneeds : res.needsResolving = true)
    (hauto : options.autoFixConflicts = some autoFix)
    (hfix : autoFix (res.conflictingFiles.map ConflictingFile.absolute)
      options.repoPath = true) :
    cherrypickAndHandleConflicts env options =
      ⟨.ok .autoResolved,
        [Event.autoFixCall (res.conflictingFiles.map ConflictingFile.absolute)
          options.repoPath], []⟩ := by
  simp [cherrypickAndHandleConflicts, hcp, hneeds, hauto, hfix]

/-- Witness for C5 at a concrete environment. -/
theorem C5_witness :
    cherrypickAndHandleConflicts envC4 optsC5 =
      ⟨.ok .autoResolved,
        [Event.autoFixCall ["/myBackportRepo/conflict.txt"] "/myBackportRepo"],
        []⟩ :=
  C5_auto_resolve_short_circuits envC4 optsC5 resB (fun _ _ => true)
    rfl rfl rfl rfl

/-- C4: with interactive mode off and conflicts the automatic resolver did not
fix, the controller fails immediately with the merge-conflict error carrying
the hint list and the truncated (first 50, relative) conflicting-file list; no
loop round is entered and no prompt event occurs, so confirm is never
invoked. -/
theorem C4_non_interactive_fails_fast (env : CtrlEnv) (options : Options)
    (res : CherrypickRes)
    (hcp : env.cherrypickResult = .ok res)
    (hneeds : res.needsResolving = true)
    (hni : options.interactive = false)
    (hauto : ∀ f, options.autoFixConflicts = some f →
      f (res.conflictingFiles.map ConflictingFile.absolute) options.repoPath = false) :
    (cherrypickAndHandleConflicts env options).result =
      .error (.mergeConflict
        (env.getCommitsWithoutBackports
          ((res.conflictingFiles.map ConflictingFile.relative).take 50))
        ((res.conflictingFiles.map ConflictingFile.relative).take 50)) ∧
    (cherrypickAndHandleConflicts env options).loopRounds = [] ∧
    ∀ e ∈ (cherrypickAndHandleConflicts env options).events, e.isPrompt = false := by
  obtain ⟨events0, hch, hev0⟩ := ctrl_reaches_handle env options res hcp hneeds hauto
  rw [hch]
  refine ⟨?_, ?_, ?_⟩
  · simp [handleUnresolvedConflicts, hni]
  · simp [handleUnresolvedConflicts, hni]
  · intro e he
    simp only [handleUnresolvedConflicts, hni, Bool.not_false, if_true] at he
    rcases List.mem_append.mp he with h | h
    · exact (hev0 e h).1
    · rcases List.mem_singleton.mp h with rfl
      rfl

/-- Witness for C4 at a concrete environment. -/
theorem C4_witness :
    (cherrypickAndHandleConflicts envC4 optsC4).result =
      .error (.mergeConflict ["conflict.txt"] ["conflict.txt"]) :=
  (C4_non_interactive_fails_fast envC4 optsC4 resB rfl rfl rfl
    (fun f hf => by simp [optsC4] at hf)).1

/-- C3 counterexample: with 75 conflicting files (and the user declining at
round 0), the interactive prompt's conflicting-file section receives all 75
files as absolute paths — not the first 50 relative paths that the hint lookup
receives. -/
theorem C3_counterexample :
    ((cherrypickAndHandleConflicts envC3 optsC3).events.filter Event.isPrompt =
      [Event.prompt 0 (files75.map ConflictingFile.absolute) []]) ∧
    (files75.map ConflictingFile.absolute).length = 75 ∧
    (files75.map ConflictingFile.absolute) ≠
      (files75.map ConflictingFile.relative).take 50 := by
  have hne : files75.map ConflictingFile.absolute ≠ [] := by
    simp [files75]
  have hs : settledCheck (files75.map ConflictingFile.absolute) [] = false := by
    simp [settledCheck, lodashDifference, List.isEmpty_iff, hne]
  have hloop := loop_decline envC3.loopEnv 0
    (files75.map ConflictingFile.absolute) [] hs rfl
  have hch : cherrypickAndHandleConflicts envC3 optsC3 =
      handleUnresolvedConflicts envC3 optsC3 ⟨files75, [], true⟩ [] := by
    simp [cherrypickAndHandleConflicts, envC3, optsC3]
  refine ⟨?_, ?_, ?_⟩
  · rw [hch]
    simp only [handleUnresolvedConflicts]
    simp [optsC3, hloop, promptEvents, Event.isPrompt, Event.isHintLookup,
      List.filter_append]
  · simp [files75]
  · intro hcontra
    have hlen := congrArg List.length hcontra
    simp [files75] at hlen
/-- C3 (amended): the hint lookup receives exactly the first 50 conflicting
files as relative paths, but the interactive prompt receives the full,
untruncated conflicting-file list as absolute paths (the entry snapshot at
round 0, then the full freshly queried sets on later rounds), and the loop
settles only when the full live-queried conflicting set is empty. -/
theorem C3_display_cap (env : CtrlEnv) (options : Options) (res : CherrypickRes)
    (hcp : env.cherrypickResult = .ok res)
    (hneeds : res.needsResolving = true)
    (hi : options.interactive = true)
    (hauto : ∀ f, options.autoFixConflicts = some f →
      f (res.conflictingFiles.map ConflictingFile.absolute) options.repoPath = false) :
    ((cherrypickAndHandleConflicts env options).events.filter Event.isHintLookup =
      [Event.hintLookup ((res.conflictingFiles.map ConflictingFile.relative).take 50)]) ∧
    ((cherrypickAndHandleConflicts env options).loopRounds.head?.map
        Round.conflictingFiles =
      some (res.conflictingFiles.map ConflictingFile.absolute)) ∧
    (∀ x ∈ (cherrypickAndHandleConflicts env options).loopRounds.tail,
      x.conflictingFiles =
        (env.loopEnv.getConflictingFiles x.retries).map ConflictingFile.absolute) ∧
    ((cherrypickAndHandleConflicts env options).result = .ok .manuallyResolved ↔
      ∃ last, (cherrypickAndHandleConflicts env options).loopRounds.getLast? =
          some last ∧
        last.conflictingFiles = [] ∧
        lodashDifference last.unstagedFiles last.conflictingFiles = []) := by
  obtain ⟨events0, hch, hev0⟩ := ctrl_reaches_handle env options res hcp hneeds hauto
  rw [hch]
  have hev0f : events0.filter Event.isHintLookup = [] := by
    rw [List.filter_eq_nil_iff]
    intro e he
    simp [(hev0 e he).2.1]
  refine ⟨?_, ?_, ?_, ?_⟩
  · cases hed : options.editor with
    | none =>
      simp [handleUnresolvedConflicts, hi, hed, List.filter_append, hev0f,
        promptEvents_filter_hint, Event.isHintLookup]
    | some ed =>
      simp [handleUnresolvedConflicts, hi, hed, List.filter_append, hev0f,
        promptEvents_filter_hint, Event.isHintLookup, Event.isEditorLaunch]
  · obtain ⟨p, a, q, rest, hrest⟩ := loop_trace_head env.loopEnv 0
      (res.conflictingFiles.map ConflictingFile.absolute) res.unstagedFiles
    simp [handleUnresolvedConflicts, hi, hrest]
  · intro x hx
    simp only [handleUnresolvedConflicts, hi, Bool.not_true, if_false] at hx
    exact (loop_tail_fresh env.loopEnv 0
      (res.conflictingFiles.map ConflictingFile.absolute) res.unstagedFiles x hx).1
  · have hiff := loop_resolved_prop env.loopEnv 0
      (res.conflictingFiles.map ConflictingFile.absolute) res.unstagedFiles
    simp only [handleUnresolvedConflicts, hi, Bool.not_true, if_false]
    rcases hL : (listConflictingAndUnstagedFiles env.loopEnv 0
        (res.conflictingFiles.map ConflictingFile.absolute) res.unstagedFiles).1 with
      _ | _ | _
    · rw [hL] at hiff
      simp only [hL]
      simpa using hiff
    · rw [hL] at hiff
      simp only [hL]
      constructor
      · intro hcontra
        exact absurd hcontra (by simp)
      · intro hex
        exact absurd (hiff.mpr hex) (by simp)
    · rw [hL] at hiff
      simp only [hL]
      constructor
      · intro hcontra
        exact absurd hcontra (by simp)
      · intro hex
        exact absurd (hiff.mpr hex) (by simp)

/-- Witness for C3 (amended) at the 75-file environment. -/
theorem C3_witness :
    (cherrypickAndHandleConflicts envC3 optsC3).events.filter Event.isHintLookup =
      [Event.hintLookup ((files75.map ConflictingFile.relative).take 50)] :=
  (C3_display_cap envC3 optsC3 ⟨files75, [], true⟩ rfl rfl rfl
    (fun f hf => by simp [optsC3] at hf)).1

/-- C8: in interactive mode with an editor configured and conflicts the
automatic resolver did not fix, the event trace decomposes as
`pre ++ [editorLaunch] ++ prompts`: the editor is launched exactly once,
strictly after no prompt (i.e. before the first confirmation prompt) and never
among the per-round prompt events of the retry loop; the launch precedes the
loop in program order, i.e. the engine waits for the editor before entering
the loop. -/
theorem C8_editor_once (env : CtrlEnv) (options : Options) (res : CherrypickRes)
    (editor : String)
    (hcp : env.cherrypickResult = .ok res)
    (hneeds : res.needsResolving = true)
    (hi : options.interactive = true)
    (hed : options.editor = some editor)
    (hauto : ∀ f, options.autoFixConflicts = some f →
      f (res.conflictingFiles.map ConflictingFile.absolute) options.repoPath = false) :
    ∃ pre, ((cherrypickAndHandleConflicts env options).events =
        pre ++ [Event.editorLaunch editor options.repoPath] ++
          promptEvents (cherrypickAndHandleConflicts env options).loopRounds) ∧
      (∀ e ∈ pre, e.isPrompt = false ∧ e.isEditorLaunch = false) ∧
      (∀ e ∈ promptEvents (cherrypickAndHandleConflicts env options).loopRounds,
        e.isEditorLaunch = false) := by
  obtain ⟨events0, hch, hev0⟩ := ctrl_reaches_handle env options res hcp hneeds hauto
  rw [hch]
  refine ⟨events0 ++
    [Event.hintLookup ((res.conflictingFiles.map ConflictingFile.relative).take 50)],
    ?_, ?_, fun e he => (promptEvents_not_editor _ e he).1⟩
  · simp [handleUnresolvedConflicts, hi, hed, List.append_assoc]
  · intro e he
    rcases List.mem_append.mp he with h | h
    · exact ⟨(hev0 e h).1, (hev0 e h).2.2⟩
    · rcases List.mem_singleton.mp h with rfl
      exact ⟨rfl, rfl⟩

/-- Witness for C8 at a concrete environment with editor "code". -/
theorem C8_witness :
    ∃ pre, ((cherrypickAndHandleConflicts envC4 optsC8).events =
        pre ++ [Event.editorLaunch "code" optsC8.repoPath] ++
          promptEvents (cherrypickAndHandleConflicts envC4 optsC8).loopRounds) ∧
      (∀ e ∈ pre, e.isPrompt = false ∧ e.isEditorLaunch = false) ∧
      (∀ e ∈ promptEvents (cherrypickAndHandleConflicts envC4 optsC8).loopRounds,
        e.isEditorLaunch = false) :=
  C8_editor_once envC4 optsC8 resB "code" rfl rfl rfl rfl
    (fun f hf => by simp [optsC8] at hf)

/-! ### Claim theorems: the orchestrator and the label glue -/

/-- C9: the orchestrator re-raises unchanged any exception from the apply
primitive or the conflict-resolution phase (without attempting the final
commit), and when conflict handling returns normally it always proceeds to
the final commit, whose result (including any exception, unchanged) becomes
the orchestrator's; the orchestrator introduces no error of its own. -/
theorem C9_orchestrator_transparent (env : OrchEnv) (options : Options) :
    (∀ e, (cherrypickAndHandleConflicts env.ctrlEnv options).result = .error e →
      (waitForCherrypick env options).result = .error e ∧
      (waitForCherrypick env options).commitAttempted = false) ∧
    (∀ o, (cherrypickAndHandleConflicts env.ctrlEnv options).result = .ok o →
      (waitForCherrypick env options).commitAttempted = true ∧
      (waitForCherrypick env options).result = env.commitChangesResult) := by
  constructor
  · intro e he
    simp [waitForCherrypick, he]
  · intro o ho
    cases hcc : env.commitChangesResult with
    | error e2 => simp [waitForCherrypick, ho, hcc]
    | ok v => cases v; simp [waitForCherrypick, ho, hcc]

/-- Witness for C9: a thrown cherry-pick exception surfaces unchanged. -/
theorem C9_witness :
    (waitForCherrypick envOrchW optsC4).result = .error (.thrown 7) ∧
    (waitForCherrypick envOrchW optsC4).commitAttempted = false :=
  (C9_orchestrator_transparent envOrchW optsC4).1 (.thrown 7) rfl

/-- C10: `addLabelsToPullRequest` resolves normally for every input — any
exception from client construction or the add-labels request is caught inside
the function, the spinner marked failed and the error logged, and nothing
propagates to the caller. -/
theorem C10_add_labels_total (env : AddLabelsEnv) (pullNumber : Nat)
    (labels : List String) :
    (∃ out, addLabelsToPullRequest env pullNumber labels = .ok out) ∧
    (∀ e, addLabelsTryBody env = .error e →
      addLabelsToPullRequest env pullNumber labels =
        .ok ⟨false, true, true⟩) ∧
    (addLabelsTryBody env = .ok () →
      addLabelsToPullRequest env pullNumber labels =
        .ok ⟨true, false, false⟩) := by
  refine ⟨?_, ?_, ?_⟩
  · cases h : addLabelsTryBody env with
    | error e => exact ⟨⟨false, true, true⟩, by simp [addLabelsToPullRequest, h]⟩
    | ok v => exact ⟨⟨true, false, false⟩, by simp [addLabelsToPullRequest, h]⟩
  · intro e he
    simp [addLabelsToPullRequest, he]
  · intro hok
    simp [addLabelsToPullRequest, hok]

/-- Witness for C10: a failing add-labels request is swallowed, logged, and
the spinner failed. -/
theorem C10_witness :
    addLabelsToPullRequest ⟨.ok (), .error 7⟩ 123 ["backport"] =
      .ok ⟨false, true, true⟩ :=
  (C10_add_labels_total ⟨.ok (), .error 7⟩ 123 ["backport"]).2.1 7 rfl

end Backport
